import Mathlib

/-!
Verification of the BPF map capability model of pkg/bpf/map.go:
the map-type enumeration, preallocation facts, kernel feature probing
(ReadFeatureProbes) and kind resolution (GetMapType), plus the
error-ceiling behaviour of the reconciliation controller.
-/

namespace Bpf

/-- MapType is an enumeration for valid BPF map types (Go: type MapType int). -/
abbrev MapType := Int

def MapTypeUnspec : MapType := 0

def MapTypeHash : MapType := 1

def MapTypeArray : MapType := 2

def MapTypeProgArray : MapType := 3

def MapTypePerfEventArray : MapType := 4

def MapTypePerCPUHash : MapType := 5

def MapTypePerCPUArray : MapType := 6

def MapTypeStackTrace : MapType := 7

def MapTypeCgroupArray : MapType := 8

def MapTypeLRUHash : MapType := 9

def MapTypeLRUPerCPUHash : MapType := 10

def MapTypeLPMTrie : MapType := 11

def MapTypeArrayOfMaps : MapType := 12

def MapTypeHashOfMaps : MapType := 13

def MapTypeDevMap : MapType := 14

def MapTypeSockMap : MapType := 15

def MapTypeCPUMap : MapType := 16

def MapTypeXSKMap : MapType := 17

def MapTypeSockHash : MapType := 18

/-- MapTypeMaximum is the maximum supported known map type. -/
def MapTypeMaximum : MapType := 19

/-- maxSyncErrors is the maximum consecutive errors syncing before the
controller bails out. -/
def maxSyncErrors : Nat := 512

/-- Go method (t MapType) String() string: the switch over the enumeration
values (MapTypeHash = 1 through MapTypeSockHash = 18), falling through to
"Unknown"; the Go switch has no case for MapTypeUnspec (0) or
MapTypeXSKMap (17), so those also reach the fallthrough. -/
def MapType.String (t : MapType) : String :=
  match t with
  | 1 => "Hash"
  | 2 => "Array"
  | 3 => "Program array"
  | 4 => "Event array"
  | 5 => "Per-CPU hash"
  | 6 => "Per-CPU array"
  | 7 => "Stack trace"
  | 8 => "Cgroup array"
  | 9 => "LRU hash"
  | 10 => "LRU per-CPU hash"
  | 11 => "Longest prefix match trie"
  | 12 => "Array of maps"
  | 13 => "Hash of maps"
  | 14 => "Device Map"
  | 15 => "Socket Map"
  | 16 => "CPU Redirect Map"
  | 18 => "Socket Hash"
  | _ => "Unknown"

/-- Go method (t MapType) allowsPreallocation() bool. -/
def MapType.allowsPreallocation (t : MapType) : Bool :=
  if t = MapTypeLPMTrie then false else true

/-- Go method (t MapType) requiresPreallocation() bool. -/
def MapType.requiresPreallocation (t : MapType) : Bool :=
  if t = MapTypeHash ∨ t = MapTypePerCPUHash ∨ t = MapTypeLPMTrie ∨ t = MapTypeHashOfMaps
  then false else true

/-- mapTypeToFeatureString maps a MapType into a string defined by run_probes.sh. -/
def mapTypeToFeatureString (mt : MapType) : String :=
  if mt = MapTypeLPMTrie then "#define HAVE_LPM_MAP_TYPE"
  else if mt = MapTypeLRUHash then "#define HAVE_LRU_MAP_TYPE"
  else ""

/-- FeatureTable models the Go global supportedMapTypes, a map from MapType
to bool; none models absence of a key. -/
def FeatureTable := MapType → Option Bool

/-- tableSet models the Go map assignment supportedMapTypes[k] = b. -/
def tableSet (tbl : FeatureTable) (k : MapType) (b : Bool) : FeatureTable :=
  fun j => if j = k then some b else tbl j

/-- emptyFeatureTable models the initial make(map[MapType]bool). -/
def emptyFeatureTable : FeatureTable := fun _ => none

/-- probeRange lists the map types visited by the Go loop
for mapType := MapTypeHash; mapType < MapTypeMaximum; mapType++. -/
def probeRange : List MapType :=
  [1, 2, 3, 4, 5, 6, 7, 8, 9, 10, 11, 12, 13, 14, 15, 16, 17, 18]

/-- scanLine models the body of the scanner loop of ReadFeatureProbes for a
single input line: for every map type in the probe range whose feature string
is non-empty and equals the line byte for byte, record support. -/
def scanLine (tbl : FeatureTable) (line : String) : FeatureTable :=
  probeRange.foldl
    (fun acc mapType =>
      let featureString := mapTypeToFeatureString mapType
      if featureString ≠ "" ∧ line = featureString then tableSet acc mapType true
      else acc)
    tbl

/-- markUnprobed models the second loop of ReadFeatureProbes: every map type
in the probe range that has a feature string but no entry after the scan is
recorded as unsupported. -/
def markUnprobed (tbl : FeatureTable) : FeatureTable :=
  probeRange.foldl
    (fun acc mapType =>
      if mapTypeToFeatureString mapType = "" then acc
      else if (acc mapType).isSome then acc
      else tableSet acc mapType false)
    tbl

/-- ReadFeatureProbes models the Go function of the same name on an input
already split into lines, threading the global table explicitly. -/
def ReadFeatureProbes (lines : List String) (tbl : FeatureTable) : FeatureTable :=
  markUnprobed (lines.foldl scanLine tbl)

/-- GetMapType determines whether the specified map type is supported
(per the table built by ReadFeatureProbes) and falls back to MapTypeHash
otherwise; the Go map read supportedMapTypes[t] yields false for a missing
key, modelled by Option.getD false. -/
def GetMapType (tbl : FeatureTable) (t : MapType) : MapType :=
  if t = MapTypeLPMTrie ∨ t = MapTypeLRUHash then
    if ((tbl t).getD false) = false then MapTypeHash else t
  else t

/-- Modelled from the spec: the per-map reconciliation controller that consumes
maxSyncErrors is not part of the visible source (only its constants are);
per spec section 3 (MapState), a map carries a running consecutive-error
counter and a failed flag. -/
structure MapState where
  errors : Nat
  failed : Bool
deriving DecidableEq

/-- Modelled from the spec: a freshly registered map has a zero error counter
and failed = false. -/
def initialMapState : MapState := { errors := 0, failed := false }

/-- Modelled from the spec: the outcome of one reconciliation pass in which
the given number of entry operations failed. A failed map is no longer
reconciled; a fully successful pass resets the error counter to zero;
otherwise each failed entry increments the counter by one, and the map
transitions to failed exactly once the counter exceeds maxSyncErrors. -/
def runPass (s : MapState) (failures : Nat) : MapState :=
  if s.failed then s
  else
    let errors2 := if failures = 0 then 0 else s.errors + failures
    { errors := errors2, failed := decide (maxSyncErrors < errors2) }

/-- Modelled from the spec: a sequence of reconciliation passes, given the
per-pass failure counts. -/
def runPasses (s : MapState) (fs : List Nat) : MapState := fs.foldl runPass s

/-! Characterization lemmas for the feature prober and kind resolution. -/

theorem scanLine_apply (tbl : FeatureTable) (line : String) (k : MapType) :
    scanLine tbl line k =
      if (k = MapTypeLPMTrie ∨ k = MapTypeLRUHash) ∧ line = mapTypeToFeatureString k
      then some true else tbl k := by
  simp only [scanLine, probeRange, List.foldl, mapTypeToFeatureString,
    MapTypeLPMTrie, MapTypeLRUHash, tableSet]
  norm_num
  split_ifs <;> simp_all [tableSet]

theorem scanLines_apply (lines : List String) (tbl : FeatureTable) (k : MapType) :
    (lines.foldl scanLine tbl) k =
      if (k = MapTypeLPMTrie ∨ k = MapTypeLRUHash) ∧ mapTypeToFeatureString k ∈ lines
      then some true else tbl k := by
  induction lines generalizing tbl with
  | nil => simp
  | cons l ls ih =>
    simp only [List.foldl_cons, ih, scanLine_apply, List.mem_cons]
    split_ifs <;> simp_all

theorem markUnprobed_apply (tbl : FeatureTable) (k : MapType) :
    markUnprobed tbl k =
      if k = MapTypeLPMTrie ∨ k = MapTypeLRUHash then some ((tbl k).getD false)
      else tbl k := by
  simp only [markUnprobed, probeRange, List.foldl, mapTypeToFeatureString,
    MapTypeLPMTrie, MapTypeLRUHash]
  norm_num
  by_cases hk : k = 11 ∨ k = 9
  · rcases hk with rfl | rfl <;>
      rcases h9 : tbl 9 with _ | b9 <;> rcases h11 : tbl 11 with _ | b11 <;>
      simp_all [tableSet]
  · push_neg at hk
    rcases h9 : tbl 9 with _ | b9 <;> rcases h11 : tbl 11 with _ | b11 <;>
      simp_all [tableSet]

theorem ReadFeatureProbes_apply (lines : List String) (tbl : FeatureTable) (k : MapType) :
    ReadFeatureProbes lines tbl k =
      if k = MapTypeLPMTrie ∨ k = MapTypeLRUHash then
        if mapTypeToFeatureString k ∈ lines then some true
        else some ((tbl k).getD false)
      else tbl k := by
  simp only [ReadFeatureProbes, markUnprobed_apply, scanLines_apply]
  split_ifs <;> simp_all

theorem GetMapType_apply (tbl : FeatureTable) (t : MapType) :
    GetMapType tbl t =
      if (t = MapTypeLPMTrie ∨ t = MapTypeLRUHash) ∧ tbl t ≠ some true
      then MapTypeHash else t := by
  unfold GetMapType
  rcases h : tbl t with _ | b
  · split_ifs <;> simp_all
  · cases b <;> split_ifs <;> simp_all

/-! Theorems for the individual claims. -/

/-- C1: GetMapType returns MapTypeHash when the requested kind is LPMTrie or
LRUHash and the table does not mark it as supported (an absent entry reads as
false, so an unprobed kind fails closed to Hash), and returns the kind
unchanged for every other kind and whenever the table marks it supported. -/
theorem getMapType_fallback_spec (tbl : FeatureTable) (t : MapType) :
    ((t = MapTypeLPMTrie ∨ t = MapTypeLRUHash) → tbl t ≠ some true →
        GetMapType tbl t = MapTypeHash) ∧
    (tbl t = some true → GetMapType tbl t = t) ∧
    (t ≠ MapTypeLPMTrie → t ≠ MapTypeLRUHash → GetMapType tbl t = t) := by
  refine ⟨fun hp hn => ?_, fun hs => ?_, fun h1 h2 => ?_⟩ <;>
    simp only [GetMapType_apply] <;> split_ifs <;> tauto

/-- Witness for C1 at concrete inputs: fallback for an unprobed LPMTrie,
identity for a supported LRUHash, identity for Array. -/
theorem getMapType_fallback_spec_witness :
    GetMapType emptyFeatureTable MapTypeLPMTrie = MapTypeHash ∧
    GetMapType (tableSet emptyFeatureTable MapTypeLRUHash true) MapTypeLRUHash
      = MapTypeLRUHash ∧
    GetMapType emptyFeatureTable MapTypeArray = MapTypeArray :=
  ⟨(getMapType_fallback_spec emptyFeatureTable MapTypeLPMTrie).1 (Or.inl rfl) (by decide),
   (getMapType_fallback_spec (tableSet emptyFeatureTable MapTypeLRUHash true)
      MapTypeLRUHash).2.1 (by decide),
   (getMapType_fallback_spec emptyFeatureTable MapTypeArray).2.2 (by decide) (by decide)⟩

/-- C7: GetMapType is idempotent for every kind and table. -/
theorem getMapType_idempotent (tbl : FeatureTable) (t : MapType) :
    GetMapType tbl (GetMapType tbl t) = GetMapType tbl t := by
  simp only [GetMapType_apply]
  split_ifs <;> simp_all [MapTypeHash, MapTypeLPMTrie, MapTypeLRUHash]

/-- C2: starting from the empty table, ReadFeatureProbes records supported
for each probed kind (LPMTrie, LRUHash) whose feature token occurs as a line
of the input, records an explicit unsupported entry for each probed kind
whose token occurs nowhere in the input, and leaves kinds without a feature
token out of the table entirely; in particular empty input yields both
probed kinds unsupported, and an input of exactly the LPM token yields
LPMTrie supported and LRUHash unsupported. -/
theorem readFeatureProbes_spec (lines : List String) :
    (ReadFeatureProbes lines emptyFeatureTable MapTypeLPMTrie =
        if "#define HAVE_LPM_MAP_TYPE" ∈ lines then some true else some false) ∧
    (ReadFeatureProbes lines emptyFeatureTable MapTypeLRUHash =
        if "#define HAVE_LRU_MAP_TYPE" ∈ lines then some true else some false) ∧
    (∀ k : MapType, mapTypeToFeatureString k = "" →
        ReadFeatureProbes lines emptyFeatureTable k = none) ∧
    ReadFeatureProbes [] emptyFeatureTable MapTypeLPMTrie = some false ∧
    ReadFeatureProbes [] emptyFeatureTable MapTypeLRUHash = some false ∧
    ReadFeatureProbes ["#define HAVE_LPM_MAP_TYPE"] emptyFeatureTable MapTypeLPMTrie
      = some true ∧
    ReadFeatureProbes ["#define HAVE_LPM_MAP_TYPE"] emptyFeatureTable MapTypeLRUHash
      = some false := by
  refine ⟨?_, ?_, fun k hk => ?_, by decide, by decide, by decide, by decide⟩
  · rw [ReadFeatureProbes_apply]
    simp [mapTypeToFeatureString, MapTypeLPMTrie, MapTypeLRUHash, emptyFeatureTable]
  · rw [ReadFeatureProbes_apply]
    simp [mapTypeToFeatureString, MapTypeLPMTrie, MapTypeLRUHash, emptyFeatureTable]
  · rw [ReadFeatureProbes_apply]
    split_ifs with h hm
    · rcases h with rfl | rfl <;>
        simp [mapTypeToFeatureString, MapTypeLPMTrie, MapTypeLRUHash] at hk
    · rcases h with rfl | rfl <;>
        simp [mapTypeToFeatureString, MapTypeLPMTrie, MapTypeLRUHash] at hk
    · rfl

/-- Witness for C2 at a concrete input and kind without a feature token. -/
theorem readFeatureProbes_spec_witness :
    ReadFeatureProbes ["#define HAVE_LPM_MAP_TYPE"] emptyFeatureTable MapTypeUnspec
      = none :=
  (readFeatureProbes_spec ["#define HAVE_LPM_MAP_TYPE"]).2.2.1 MapTypeUnspec (by decide)

/-- C8: ReadFeatureProbes is idempotent: a second run over the same input
leaves the support table exactly as after the first run, whatever table the
first run started from. -/
theorem readFeatureProbes_idempotent (lines : List String) (tbl : FeatureTable) :
    ReadFeatureProbes lines (ReadFeatureProbes lines tbl) =
      ReadFeatureProbes lines tbl := by
  funext k
  simp only [ReadFeatureProbes_apply]
  split_ifs <;> simp_all

/-- C9: mapTypeToFeatureString returns the LPM token for LPMTrie and the LRU
token for LRUHash and the empty string for every other kind; and the prober
changes the table at a kind only when the input line equals that kind's
token character for character (exact whole-line equality). -/
theorem featureString_spec :
    mapTypeToFeatureString MapTypeLPMTrie = "#define HAVE_LPM_MAP_TYPE" ∧
    mapTypeToFeatureString MapTypeLRUHash = "#define HAVE_LRU_MAP_TYPE" ∧
    (∀ t : MapType, t ≠ MapTypeLPMTrie → t ≠ MapTypeLRUHash →
        mapTypeToFeatureString t = "") ∧
    (∀ (tbl : FeatureTable) (line : String) (k : MapType),
        scanLine tbl line k ≠ tbl k →
        line = mapTypeToFeatureString k ∧ mapTypeToFeatureString k ≠ "") := by
  refine ⟨by decide, by decide, fun t h1 h2 => ?_, fun tbl line k hne => ?_⟩
  · simp [mapTypeToFeatureString, h1, h2]
  · rw [scanLine_apply] at hne
    split_ifs at hne with h
    · refine ⟨h.2, ?_⟩
      rcases h.1 with rfl | rfl <;> decide
    · exact absurd rfl hne

/-- Witness for C9 at concrete inputs: Unspec has no token, and a scan step
that changes the table for LPMTrie matched the exact token line. -/
theorem featureString_spec_witness :
    mapTypeToFeatureString MapTypeUnspec = "" ∧
    ("#define HAVE_LPM_MAP_TYPE" = mapTypeToFeatureString MapTypeLPMTrie ∧
      mapTypeToFeatureString MapTypeLPMTrie ≠ "") :=
  ⟨featureString_spec.2.2.1 MapTypeUnspec (by decide) (by decide),
   featureString_spec.2.2.2 emptyFeatureTable "#define HAVE_LPM_MAP_TYPE"
     MapTypeLPMTrie (by decide)⟩

/-- C10: recorded support is monotone across prober runs: an entry already
recorded supported is never changed by another run on any input; and the
second phase writes an entry (the explicit negative) only at a kind that had
no entry at all when the line scan ended, and what it writes is unsupported. -/
theorem readFeatureProbes_monotone (lines : List String) (tbl : FeatureTable)
    (k : MapType) :
    (tbl k = some true → ReadFeatureProbes lines tbl k = some true) ∧
    (markUnprobed (lines.foldl scanLine tbl) k ≠ (lines.foldl scanLine tbl) k →
      (lines.foldl scanLine tbl) k = none ∧
      ReadFeatureProbes lines tbl k = some false) := by
  constructor
  · intro ht
    rw [ReadFeatureProbes_apply]
    split_ifs with h hm
    · rfl
    · rw [ht]; rfl
    · exact ht
  · intro hne
    rw [markUnprobed_apply] at hne
    split_ifs at hne with h
    · rcases hc : (lines.foldl scanLine tbl) k with _ | b
      · constructor
        · rfl
        · show markUnprobed (lines.foldl scanLine tbl) k = some false
          rw [markUnprobed_apply, if_pos h, hc]
          rfl
      · simp [hc] at hne
    · exact absurd rfl hne

/-- Witness for C10 at concrete inputs: a supported LPMTrie entry survives a
run on empty input, and on empty input from the empty table the second phase
writes the explicit negative for LPMTrie, which had no entry at scan end. -/
theorem readFeatureProbes_monotone_witness :
    ReadFeatureProbes [] (tableSet emptyFeatureTable MapTypeLPMTrie true)
      MapTypeLPMTrie = some true ∧
    (List.foldl scanLine emptyFeatureTable [] MapTypeLPMTrie = none ∧
      ReadFeatureProbes [] emptyFeatureTable MapTypeLPMTrie = some false) :=
  ⟨(readFeatureProbes_monotone [] (tableSet emptyFeatureTable MapTypeLPMTrie true)
      MapTypeLPMTrie).1 (by decide),
   (readFeatureProbes_monotone [] emptyFeatureTable MapTypeLPMTrie).2 (by decide)⟩

/-- C4: MapType.String is total and never returns the empty string, returns
"Unknown" for every value outside the enumeration, and returns the fixed
label of each enumerated value (the code has no case for Unspec or XSKMap,
so those two also read "Unknown"). -/
theorem mapType_name_spec :
    (∀ t : MapType, MapType.String t ≠ "") ∧
    (∀ t : MapType, t < MapTypeUnspec ∨ MapTypeMaximum ≤ t →
        MapType.String t = "Unknown") ∧
    MapType.String MapTypeUnspec = "Unknown" ∧
    MapType.String MapTypeHash = "Hash" ∧
    MapType.String MapTypeArray = "Array" ∧
    MapType.String MapTypeProgArray = "Program array" ∧
    MapType.String MapTypePerfEventArray = "Event array" ∧
    MapType.String MapTypePerCPUHash = "Per-CPU hash" ∧
    MapType.String MapTypePerCPUArray = "Per-CPU array" ∧
    MapType.String MapTypeStackTrace = "Stack trace" ∧
    MapType.String MapTypeCgroupArray = "Cgroup array" ∧
    MapType.String MapTypeLRUHash = "LRU hash" ∧
    MapType.String MapTypeLRUPerCPUHash = "LRU per-CPU hash" ∧
    MapType.String MapTypeLPMTrie = "Longest prefix match trie" ∧
    MapType.String MapTypeArrayOfMaps = "Array of maps" ∧
    MapType.String MapTypeHashOfMaps = "Hash of maps" ∧
    MapType.String MapTypeDevMap = "Device Map" ∧
    MapType.String MapTypeSockMap = "Socket Map" ∧
    MapType.String MapTypeCPUMap = "CPU Redirect Map" ∧
    MapType.String MapTypeXSKMap = "Unknown" ∧
    MapType.String MapTypeSockHash = "Socket Hash" := by
  refine ⟨fun t => ?_, fun t h => ?_,
    rfl, rfl, rfl, rfl, rfl, rfl, rfl, rfl, rfl, rfl, rfl, rfl, rfl, rfl,
    rfl, rfl, rfl, rfl, rfl⟩
  · unfold MapType.String
    split <;> simp
  · unfold MapType.String
    split <;> first | rfl | (revert h; decide)

/-- Witness for C4 at a concrete value outside the enumeration. -/
theorem mapType_name_spec_witness :
    MapType.String 42 = "Unknown" :=
  mapType_name_spec.2.1 42 (Or.inr (by decide))

/-- C5: allowsPreallocation returns false for exactly one kind, LPMTrie, and
true for every other value. -/
theorem allowsPreallocation_spec (t : MapType) :
    MapType.allowsPreallocation t = false ↔ t = MapTypeLPMTrie := by
  unfold MapType.allowsPreallocation
  split_ifs <;> simp_all

/-- C6: requiresPreallocation returns false for exactly Hash, PerCPUHash,
LPMTrie and HashOfMaps, and true for every other value. -/
theorem requiresPreallocation_spec (t : MapType) :
    MapType.requiresPreallocation t = false ↔
      (t = MapTypeHash ∨ t = MapTypePerCPUHash ∨ t = MapTypeLPMTrie ∨
        t = MapTypeHashOfMaps) := by
  unfold MapType.requiresPreallocation
  split_ifs <;> simp_all

theorem runPasses_replicate_one (n : Nat) (h : n ≤ maxSyncErrors) :
    runPasses initialMapState (List.replicate n 1) =
      { errors := n, failed := false } := by
  induction n with
  | zero => rfl
  | succ m ih =>
    have hm : m ≤ maxSyncErrors := Nat.le_of_succ_le h
    have hrw : List.replicate (m + 1) (1 : Nat) = List.replicate m 1 ++ [1] :=
      List.replicate_succ' m 1 ▸ rfl
    unfold runPasses at ih ⊢
    rw [hrw, List.foldl_append, ih hm]
    have h2 : m + 1 ≤ 512 := h
    have hnot : ¬ (maxSyncErrors < m + 1) := by
      simp only [maxSyncErrors]
      omega
    simp [runPass, hnot]

/-- C3: on a fully successful pass the consecutive-error counter resets to
zero and the map does not fail; a failed map is never reconciled again; an
unfailed map fails after a pass exactly when its counter then exceeds
maxSyncErrors = 512; 513 consecutive single-failure passes from the initial
state produce a failed map, while 512 such passes leave it unfailed with
counter 512, and a subsequent successful pass resets the counter to zero. -/
theorem syncErrorCeiling_spec :
    (∀ s : MapState, s.failed = false →
        (runPass s 0).errors = 0 ∧ (runPass s 0).failed = false) ∧
    (∀ s : MapState, s.failed = true → ∀ f : Nat, runPass s f = s) ∧
    (∀ s : MapState, s.failed = false → ∀ f : Nat,
        ((runPass s f).failed = true ↔ maxSyncErrors < (runPass s f).errors)) ∧
    (runPasses initialMapState (List.replicate 513 1)).failed = true ∧
    (runPasses initialMapState (List.replicate 512 1)).failed = false ∧
    (runPasses initialMapState (List.replicate 512 1)).errors = 512 ∧
    (runPass (runPasses initialMapState (List.replicate 512 1)) 0).errors = 0 ∧
    (runPass (runPasses initialMapState (List.replicate 512 1)) 0).failed = false := by
  refine ⟨fun s hs => ?_, fun s hs f => ?_, fun s hs f => ?_, ?_,
    by rw [runPasses_replicate_one 512 (Nat.le_refl 512)],
    by rw [runPasses_replicate_one 512 (Nat.le_refl 512)],
    by rw [runPasses_replicate_one 512 (Nat.le_refl 512)]; decide,
    by rw [runPasses_replicate_one 512 (Nat.le_refl 512)]; decide⟩
  · simp [runPass, hs, maxSyncErrors]
  · simp [runPass, hs]
  · simp only [runPass, hs, if_false, Bool.false_eq_true]
    constructor
    · intro hf
      by_cases h0 : f = 0 <;> simp_all [maxSyncErrors]
    · intro hlt
      by_cases h0 : f = 0 <;> simp_all [maxSyncErrors]
  · have h512 := runPasses_replicate_one 512 (Nat.le_refl 512)
    have hrw : List.replicate 513 (1 : Nat) = List.replicate 512 1 ++ [1] :=
      List.replicate_succ' 512 1 ▸ rfl
    unfold runPasses at h512 ⊢
    rw [hrw, List.foldl_append, h512]
    decide

/-- Witness for C3 at concrete states: a successful pass resets the counter
of an unfailed map at the ceiling, a failed map absorbs any pass, and the
failure condition after a pass matches the ceiling comparison. -/
theorem syncErrorCeiling_spec_witness :
    ((runPass { errors := 512, failed := false } 0).errors = 0 ∧
      (runPass { errors := 512, failed := false } 0).failed = false) ∧
    runPass { errors := 3, failed := true } 7 = { errors := 3, failed := true } ∧
    ((runPass { errors := 512, failed := false } 1).failed = true ↔
      maxSyncErrors < (runPass { errors := 512, failed := false } 1).errors) :=
  ⟨syncErrorCeiling_spec.1 { errors := 512, failed := false } rfl,
   syncErrorCeiling_spec.2.1 { errors := 3, failed := true } rfl 7,
   syncErrorCeiling_spec.2.2.1 { errors := 512, failed := false } rfl 1⟩

end Bpf
